import Mathlib

set_option maxRecDepth 100000

namespace GestionAlquiler

/-!
Verification of the financial core of a short-term-rental management API
(quarter arithmetic, stay-duration calculation, VAT invoice totals, and the
dashboard/VAT-settlement aggregator), as a shallow embedding of the
JavaScript source into Lean.

Conventions of the embedding:

* Timestamps are `Int` (UTC epoch offsets; the unit - seconds or
  milliseconds - is stated at each use site, mirroring the source, which
  mixes both).
* Monetary amounts and percentages are `ℚ` (the source uses JS numbers;
  the rational model captures the exact arithmetic the formulas denote).
* JS division on `Int` values that are exact multiples is `Int` division
  (Lean's `/` on `Int` is Euclidean division, which is floor division for
  the positive divisors used here, matching `Math.floor`/`moment.unix`).
* Fallible service functions return `Except ApiError α`, mirroring the
  source's neverthrow `ok`/`err` results.
* moment's local calendar is modelled by an explicit UTC-offset function
  for Europe/Madrid (see `madridOffset` below).
-/

/-! ### Civil (Gregorian) calendar arithmetic

The source delegates calendar computations to the moment / moment-timezone
library.  We model the proleptic Gregorian calendar with the standard
era-based epoch-day conversion (days counted from 1970-01-01 UTC). -/

/-- Number of days from 1970-01-01 to the civil date `y-m-d` (month `m` in
1..12).  Standard era decomposition of the Gregorian calendar. -/
def daysFromCivil (y m d : Int) : Int :=
  let yAdj : Int := y - (if m ≤ 2 then 1 else 0)
  let era : Int := yAdj / 400
  let yoe : Int := yAdj - era * 400
  let mp : Int := (m + 9) % 12
  let doy : Int := (153 * mp + 2) / 5 + d - 1
  let doe : Int := yoe * 365 + yoe / 4 - yoe / 100 + doy
  era * 146097 + doe - 719468

/-- Inverse of `daysFromCivil`: the civil date `(y, m, d)` of epoch day `z`. -/
def civilFromDays (z : Int) : Int × Int × Int :=
  let z' : Int := z + 719468
  let era : Int := z' / 146097
  let doe : Int := z' - era * 146097
  let yoe : Int := (doe - doe / 1460 + doe / 36524 - doe / 146096) / 365
  let y : Int := yoe + era * 400
  let doy : Int := doe - (365 * yoe + yoe / 4 - yoe / 100)
  let mp : Int := (5 * doy + 2) / 153
  let d : Int := doy - (153 * mp + 2) / 5 + 1
  let m : Int := mp + (if mp < 10 then 3 else -9)
  (y + (if m ≤ 2 then 1 else 0), m, d)

/-- Milliseconds per day. -/
def msPerDay : Int := 86400000

/-- Milliseconds per hour. -/
def msPerHour : Int := 3600000

/-! ### The Europe/Madrid reference calendar

Modelled from the spec: the Stay-Duration Calculator works "in a fixed
reference calendar - Europe/Madrid".  In the source this calendar is
supplied by the moment-timezone zone database, an external dependency not
under `src/`; we model it by the current European Union daylight-saving
rule (UTC+1, switching to UTC+2 between 01:00 UTC of the last Sunday of
March and 01:00 UTC of the last Sunday of October), extended to all years
through the 400-year periodicity of the Gregorian calendar (146097 days,
anchored at 2000-01-01 UTC = epoch day 10957). -/

/-- Epoch day of the last Sunday of month `m` of year `y`, for the 31-day
months used by the DST rule (March and October).  1970-01-01 (epoch day 0)
is a Thursday, so day `z` has weekday `(z + 4) % 7` with Sunday = 0. -/
def lastSundayDay (y m : Int) : Int :=
  daysFromCivil y m 31 - (daysFromCivil y m 31 + 4) % 7

/-- Instant (ms, relative to 2000-01-01 UTC) at which DST starts in year
`2000 + k`: 01:00 UTC of the last Sunday of March. -/
def dstStartRel (y : Int) : Int :=
  (lastSundayDay y 3 - 10957) * msPerDay + msPerHour

/-- Instant (ms, relative to 2000-01-01 UTC) at which DST ends in year
`2000 + k`: 01:00 UTC of the last Sunday of October. -/
def dstEndRel (y : Int) : Int :=
  (lastSundayDay y 10 - 10957) * msPerDay + msPerHour

/-- Milliseconds of one 400-year Gregorian cycle (146097 days). -/
def cycleMs : Int := 12622780800000

/-- Milliseconds of the cycle anchor 2000-01-01T00:00:00Z (epoch day 10957). -/
def baseMs : Int := 946684800000

/-- Position of instant `t` (epoch ms) within the 400-year cycle. -/
def madridCyclePos (t : Int) : Int := (t - baseMs) % cycleMs

/-- Whether cycle position `x` falls inside a DST interval of the cycle. -/
def dstAt (x : Int) : Bool :=
  (List.range 400).any fun k =>
    decide (dstStartRel (2000 + (k : Int)) ≤ x) &&
    decide (x < dstEndRel (2000 + (k : Int)))

/-- Whether instant `t` (epoch ms) is in Madrid daylight-saving time. -/
def madridIsDST (t : Int) : Bool := dstAt (madridCyclePos t)

/-- UTC offset (ms) of the Europe/Madrid calendar at instant `t`:
+02:00 during DST, +01:00 otherwise. -/
def madridOffset (t : Int) : Int :=
  if madridIsDST t then 7200000 else 3600000

/-- Local wall-clock milliseconds of instant `t` in the Madrid calendar. -/
def madridLocal (t : Int) : Int := t + madridOffset t

/-- Local calendar day number of instant `t` (Madrid calendar). -/
def madridDay (t : Int) : Int := madridLocal t / msPerDay

/-- Wall-clock ms of moment(t).startOf(day): local midnight of t's day. -/
def startOfDayLocal (t : Int) : Int := madridDay t * msPerDay

/-- Wall-clock ms of moment(t).endOf(day): local 23:59:59.999 of t's day. -/
def endOfDayLocal (t : Int) : Int := madridDay t * msPerDay + (msPerDay - 1)

/-- moment's absFloor: round toward zero (floor for nonnegative, ceil for
negative), applied to the exact quotient `x / d` with `d > 0`. -/
def absFloorDiv (x d : Int) : Int := if x < 0 then -((-x) / d) else x / d

/-- Embedding of utils/dates `calculateDaysDifference(checkIn, checkOut)`
(both epoch ms): `moment(checkOut).endOf(day).diff(moment(checkIn).startOf(day),
days)`.  moment's `a.diff(b, days)` equals `absFloor((a - b - zoneDelta) /
864e5)` where the zone correction makes the difference a wall-clock
difference, so the whole computation happens in local wall-clock ms. -/
def calculateDaysDifference (checkIn checkOut : Int) : Int :=
  absFloorDiv (endOfDayLocal checkOut - startOfDayLocal checkIn) msPerDay

/-! ### Quarter arithmetic (utils/dates) -/

/-- Epoch day of the first day of 0-indexed month `m0` of year `y`
(`moment.tz([y, m0, 1], "UTC")`; moment normalizes month overflow into the
year, e.g. month 12 is January of the next year). -/
def monthFirstDay (y m0 : Int) : Int :=
  daysFromCivil (y + m0 / 12) (m0 % 12 + 1) 1

def getQuarterDates (year quarter : Int) : Int × Int :=
  let startMonth := (quarter - 1) * 3
  (monthFirstDay year startMonth * 86400 * 1000,
   (monthFirstDay year (startMonth + 3) * 86400 - 1) * 1000)

/-- Embedding of utils/dates `getCurrentQuarter(date)`: the quarter
(1..4) of the local (Madrid) calendar month of `nowMs`. -/
def getCurrentQuarter (nowMs : Int) : Int :=
  ((civilFromDays (madridDay nowMs)).2.1 - 1) / 3 + 1

/-- Embedding of utils/dates `getCurrentYear()`: the local (Madrid)
calendar year of `nowMs`. -/
def getCurrentYear (nowMs : Int) : Int :=
  (civilFromDays (madridDay nowMs)).1

/-! ### Data model

Documents of the two financial collections, with the fields used by the
financial core (mongoose `_id`s and bookkeeping timestamps omitted).
Reference ids are modelled as `String`. -/

/-- An expense document (dependencies/mongodb-client expense schema). -/
structure ExpenseDoc where
  apartmentId : String
  concept : String
  date : Int
  providerNif : String
  expense : ℚ
  iva : ℚ
  totalIva : ℚ
  totalInvoice : ℚ
  paid : Bool
deriving DecidableEq

/-- An income document (dependencies/mongodb-client income schema). -/
structure IncomeDoc where
  apartmentId : String
  intermediaryId : String
  rateId : String
  checkIn : Int
  checkOut : Int
  nights : Int
  clientName : String
  clientNif : String
  clientPhone : String
  numberOfPeople : ℚ
  discount : ℚ
  totalIva : ℚ
  totalInvoice : ℚ
  observations : String
deriving DecidableEq

/-- A rate document (read-only here): price per night and VAT percentage. -/
structure Rate where
  apartmentId : String
  pricePerNight : ℚ
  iva : ℚ
deriving DecidableEq

/-- A service error (neverthrow err payload): HTTP code and message. -/
structure ApiError where
  code : Int
  message : String
deriving DecidableEq

def badRequest (msg : String) : ApiError := ⟨400, msg⟩

def notFound (msg : String) : ApiError := ⟨404, msg⟩

def internalError (msg : String) : ApiError := ⟨500, msg⟩

/-! ### Expense schema methods (dependencies/mongodb-client expense schema) -/

/-- Embedding of the expense schema static `createNewExpense`:
`totalIva = expense * iva / 100`, `totalInvoice = expense + totalIva`. -/
def createNewExpense (apartmentId concept : String) (date : Int)
    (providerNif : String) (expense iva : ℚ) (paid : Bool) : ExpenseDoc :=
  let totalIva := expense * iva / 100
  let totalInvoice := expense + totalIva
  { apartmentId := apartmentId, concept := concept, date := date,
    providerNif := providerNif, expense := expense, iva := iva,
    totalIva := totalIva, totalInvoice := totalInvoice, paid := paid }

/-- Partial-update payload for the expense schema method `update`.  A
`some` field models a present own-property of the JS `data` object
(the method tests `data.hasOwnProperty(...)`). -/
structure ExpenseUpdateData where
  apartmentId : Option String
  concept : Option String
  date : Option Int
  providerNif : Option String
  expense : Option ℚ
  iva : Option ℚ
  paid : Option Bool
deriving DecidableEq

/-- The field-copy phase of the expense schema method `update`: each
present field of the payload overwrites the document field. -/
def ExpenseDoc.applyData (doc : ExpenseDoc) (data : ExpenseUpdateData) : ExpenseDoc :=
  { doc with
    apartmentId := data.apartmentId.getD doc.apartmentId,
    concept := data.concept.getD doc.concept,
    date := data.date.getD doc.date,
    providerNif := data.providerNif.getD doc.providerNif,
    expense := data.expense.getD doc.expense,
    iva := data.iva.getD doc.iva,
    paid := data.paid.getD doc.paid }

/-- Embedding of the expense schema method `update`: copy each present
field onto the document, then recompute `totalIva`/`totalInvoice` from the
(possibly new) `expense` and `iva`. -/
def ExpenseDoc.update (doc : ExpenseDoc) (data : ExpenseUpdateData) : ExpenseDoc :=
  { doc.applyData data with
    totalIva := (doc.applyData data).expense * (doc.applyData data).iva / 100,
    totalInvoice := (doc.applyData data).expense
      + (doc.applyData data).expense * (doc.applyData data).iva / 100 }

/-! ### Income schema methods (dependencies/mongodb-client income schema)

The schema stores `checkIn`/`checkOut` in seconds and multiplies by 1000
before the moment-based nights computation.  `createNewIncome` passes
start-of-day / end-of-day moments into `calculateDaysDifference`, which
applies `startOf(day)`/`endOf(day)` again (idempotent), so the nights
value equals `calculateDaysDifference (checkIn*1000) (checkOut*1000)`.
The rate referenced by `rateId` is fetched live (`Rate.findOne`); the
store is modelled as a lookup function `rates`.  A failed lookup makes the
JS code dereference `null` (a thrown TypeError, surfaced by the calling
service's catch block as a 500 error). -/

/-- Input object for the income schema static `createNewIncome`. -/
structure IncomeInput where
  apartmentId : String
  intermediaryId : String
  rateId : String
  checkIn : Int
  checkOut : Int
  clientName : String
  clientNif : String
  clientPhone : String
  numberOfPeople : ℚ
  discount : ℚ
  observations : String
deriving DecidableEq

/-- Embedding of the income schema static `createNewIncome`. -/
def createNewIncome (rates : String → Option Rate) (income : IncomeInput) :
    Except ApiError IncomeDoc :=
  let nights := calculateDaysDifference (income.checkIn * 1000) (income.checkOut * 1000)
  match rates income.rateId with
  | none => .error (internalError "Cannot read properties of null")
  | some rate =>
    let baseAmount := rate.pricePerNight * income.numberOfPeople * (nights : ℚ)
    let discountAmount := baseAmount * (income.discount / 100)
    let totalAfterDiscount := baseAmount - discountAmount
    let totalIva := totalAfterDiscount * (rate.iva / 100)
    let totalInvoice := totalAfterDiscount + totalIva
    .ok
      { apartmentId := income.apartmentId,
        intermediaryId := income.intermediaryId,
        rateId := income.rateId,
        checkIn := income.checkIn,
        checkOut := income.checkOut,
        nights := nights,
        clientName := income.clientName,
        clientNif := income.clientNif,
        clientPhone := income.clientPhone,
        numberOfPeople := income.numberOfPeople,
        discount := income.discount,
        totalIva := totalIva,
        totalInvoice := totalInvoice,
        observations := income.observations }

/-- Partial-update payload for the income schema method `update`
(`hasOwnProperty` semantics, like `ExpenseUpdateData`). -/
structure IncomeUpdateData where
  apartmentId : Option String
  intermediaryId : Option String
  rateId : Option String
  checkIn : Option Int
  checkOut : Option Int
  clientName : Option String
  clientNif : Option String
  clientPhone : Option String
  numberOfPeople : Option ℚ
  discount : Option ℚ
  observations : Option String
deriving DecidableEq

/-- The field-copy phase of the income schema method `update`: each
present field of the payload overwrites the document field. -/
def IncomeDoc.applyData (doc : IncomeDoc) (data : IncomeUpdateData) : IncomeDoc :=
  { doc with
    apartmentId := data.apartmentId.getD doc.apartmentId,
    intermediaryId := data.intermediaryId.getD doc.intermediaryId,
    rateId := data.rateId.getD doc.rateId,
    checkIn := data.checkIn.getD doc.checkIn,
    checkOut := data.checkOut.getD doc.checkOut,
    clientName := data.clientName.getD doc.clientName,
    clientNif := data.clientNif.getD doc.clientNif,
    clientPhone := data.clientPhone.getD doc.clientPhone,
    numberOfPeople := data.numberOfPeople.getD doc.numberOfPeople,
    discount := data.discount.getD doc.discount,
    observations := data.observations.getD doc.observations }

/-- Embedding of the income schema method `update`: copy each present
field, then recompute `nights` and the totals from the updated document
and the (re-fetched) referenced rate. -/
def IncomeDoc.update (rates : String → Option Rate) (doc : IncomeDoc)
    (data : IncomeUpdateData) : Except ApiError IncomeDoc :=
  match rates (doc.applyData data).rateId with
  | none => .error (internalError "Cannot read properties of null")
  | some rate =>
    let nights := calculateDaysDifference ((doc.applyData data).checkIn * 1000)
      ((doc.applyData data).checkOut * 1000)
    let baseAmount := rate.pricePerNight * (doc.applyData data).numberOfPeople * (nights : ℚ)
    let discountAmount := baseAmount * ((doc.applyData data).discount / 100)
    let totalAfterDiscount := baseAmount - discountAmount
    let totalIva := totalAfterDiscount * (rate.iva / 100)
    let totalInvoice := totalAfterDiscount + totalIva
    .ok
      { doc.applyData data with
        nights := nights,
        totalIva := totalIva,
        totalInvoice := totalInvoice }

/-! ### JS truthiness of request fields

Service-layer functions guard every optional request field with a JS
truthiness test (`if (data.field) ...`).  A request field is modelled as
an `Option`; `none` is an absent (undefined) field, and a present value
is falsy exactly when it is `0`, `false`, or the empty string. -/

def truthyStr : Option String → Bool
  | none => false
  | some s => s ≠ ""

def truthyInt : Option Int → Bool
  | none => false
  | some n => n ≠ 0

def truthyRat : Option ℚ → Bool
  | none => false
  | some q => q ≠ 0

def truthyBool : Option Bool → Bool
  | none => false
  | some b => b

/-- Instant (epoch ms) of a Madrid wall-clock time `w` (ms): the inverse
of `madridLocal`, resolved with the offset in effect two hours earlier
(Madrid DST transitions happen at 02:00/03:00 local time, so this matches
moment's resolution for the start/end-of-day wall times used below). -/
def instantOfLocal (w : Int) : Int := w - madridOffset (w - 7200000)

/-- Instant of `moment().endOf(day)`: local 23:59:59.999 of the current
Madrid day of `nowMs`. -/
def endOfTodayInstant (nowMs : Int) : Int :=
  instantOfLocal (endOfDayLocal nowMs)

/-! ### Expense service (services expenses module) -/

/-- Request body of PUT /expenses/:expenseId (all fields optional). -/
structure UpdateExpenseArgs where
  concept : Option String
  apartmentId : Option String
  date : Option Int
  providerNif : Option String
  expense : Option ℚ
  iva : Option ℚ
  paid : Option Bool
deriving DecidableEq

/-- Embedding of the expense service `updateExpenseById`.  `apartments`
models `fastify.mongo_apartment.findById` (existence of the apartment);
`expense?` models the result of `findById(expenseId)`; `nowMs` is the
wall-clock used by the `moment()` date validation.  Each request field is
copied into the update payload only when truthy, then the schema method
`update` is applied. -/
def updateExpenseFound (apartments : String → Bool) (nowMs : Int)
    (expense : ExpenseDoc) (a : UpdateExpenseArgs) :
    Except ApiError ExpenseDoc :=
  if truthyStr a.apartmentId ∧ ¬ apartments (a.apartmentId.getD "") then
    .error (notFound "Apartment not found for the expense to update")
  else if truthyInt a.date ∧ endOfTodayInstant nowMs < a.date.getD 0 then
    .error (badRequest "Expense date must be before or equal than today")
  else
    .ok (expense.update
      { concept := if truthyStr a.concept then a.concept else none,
        apartmentId := if truthyStr a.apartmentId then a.apartmentId else none,
        date := if truthyInt a.date then a.date else none,
        providerNif := if truthyStr a.providerNif then a.providerNif else none,
        expense := if truthyRat a.expense then a.expense else none,
        iva := if truthyRat a.iva then a.iva else none,
        paid := if truthyBool a.paid then a.paid else none })

/-- Embedding of the expense service `updateExpenseById`: not-found check
on the looked-up document, then the body above. -/
def updateExpenseByIdService (apartments : String → Bool) (nowMs : Int)
    (expense? : Option ExpenseDoc) (a : UpdateExpenseArgs) :
    Except ApiError ExpenseDoc :=
  match expense? with
  | none => .error (notFound "Expense not found")
  | some expense => updateExpenseFound apartments nowMs expense a

/-! ### Income service (services incomes module) -/

/-- Request body of POST /incomes.  The route schema requires the listed
fields at the HTTP layer but the service re-checks them with truthiness
guards, so they are modelled as options; `discount` has a schema default
of 0 and is always a number. -/
structure CreateIncomeArgs where
  apartmentId : Option String
  intermediaryId : Option String
  rateId : Option String
  checkIn : Option Int
  checkOut : Option Int
  clientName : Option String
  clientNif : Option String
  clientPhone : Option String
  numberOfPeople : Option ℚ
  discount : ℚ
  observations : Option String
deriving DecidableEq

/-- Embedding of the income service `createNewIncome` (validation cascade
followed by the schema static).  `apartments`/`intermediaries` model
existence lookups, `rates` the rate lookup.  The date validation compares
`moment(checkIn).startOf(d)` with `moment(checkOut).endOf(d)` on the raw
request values (which the schema then multiplies by 1000): the request is
rejected only when the check-in calendar day is strictly after the
check-out calendar day. -/
def createIncomeWithRate (rates : String → Option Rate) (rate : Rate)
    (a : CreateIncomeArgs) : Except ApiError IncomeDoc :=
  -- Validation steps from the rate-ownership check onward, then the schema
  -- static `createNewIncome`.
  if rate.apartmentId ≠ a.apartmentId.getD "" then
    .error (badRequest "Rate ID unauthorized for apartment ID to create income")
  else if ¬ truthyInt a.checkIn then
    .error (badRequest "Missing check in date for the income")
  else if ¬ truthyInt a.checkOut then
    .error (badRequest "Missing check out date for the income")
  else if endOfDayLocal (a.checkOut.getD 0) < startOfDayLocal (a.checkIn.getD 0) then
    .error (badRequest "Income check in date must be before than check out date")
  else if ¬ truthyStr a.clientName then
    .error (badRequest "Missing clientName for the income")
  else if ¬ truthyStr a.clientNif then
    .error (badRequest "Missing clientNif for the income")
  else if ¬ truthyStr a.clientPhone then
    .error (badRequest "Missing clientPhone for the income")
  else if ¬ truthyRat a.numberOfPeople then
    .error (badRequest "Missing number of people for the income")
  else
    createNewIncome rates
      { apartmentId := a.apartmentId.getD "",
        intermediaryId := a.intermediaryId.getD "",
        rateId := a.rateId.getD "",
        checkIn := a.checkIn.getD 0,
        checkOut := a.checkOut.getD 0,
        clientName := a.clientName.getD "",
        clientNif := a.clientNif.getD "",
        clientPhone := a.clientPhone.getD "",
        numberOfPeople := a.numberOfPeople.getD 0,
        discount := a.discount,
        observations := a.observations.getD "" }

/-- Existence checks on the apartment, intermediary and rate references,
then the rest of the cascade (`createIncomeWithRate`). -/
def createNewIncomeService (apartments intermediaries : String → Bool)
    (rates : String → Option Rate) (a : CreateIncomeArgs) :
    Except ApiError IncomeDoc :=
  if ¬ truthyStr a.apartmentId then
    .error (badRequest "Missing apartment ID for the income")
  else if ¬ apartments (a.apartmentId.getD "") then
    .error (badRequest "Apartment ID not found for the income to create")
  else if ¬ truthyStr a.intermediaryId then
    .error (badRequest "Missing intermediary ID for the income")
  else if ¬ intermediaries (a.intermediaryId.getD "") then
    .error (badRequest "Intermediary ID not found for the income to create")
  else if ¬ truthyStr a.rateId then
    .error (badRequest "Missing rate ID for the income")
  else
    match rates (a.rateId.getD "") with
    | none => .error (badRequest "Rate ID not found for the income to create")
    | some rate => createIncomeWithRate rates rate a

/-- Request body of PUT /incomes/:incomeId (all fields optional). -/
structure UpdateIncomeArgs where
  apartmentId : Option String
  intermediaryId : Option String
  rateId : Option String
  checkIn : Option Int
  checkOut : Option Int
  clientName : Option String
  clientNif : Option String
  clientPhone : Option String
  numberOfPeople : Option ℚ
  discount : Option ℚ
  observations : Option String
deriving DecidableEq

/-- Embedding of the income service `updateIncomeById`.  Notable source
behaviours preserved here: a truthy `rateId` whose lookup succeeds reaches
the comparison `rate.apartmentId != apartmentId` with an undeclared
variable `apartmentId`, so the service throws a ReferenceError that the
catch block turns into a 500 error; the check-in/check-out validation runs
only when a truthy `checkOut` is supplied and reads `incomeData.checkIn`
unconditionally (`moment(undefined)` is the current time, modelled with
`nowMs`). -/
def updateIncomeFound (apartments intermediaries : String → Bool)
    (rates : String → Option Rate) (nowMs : Int) (income : IncomeDoc)
    (a : UpdateIncomeArgs) : Except ApiError IncomeDoc :=
  if truthyStr a.apartmentId ∧ ¬ apartments (a.apartmentId.getD "") then
    .error (notFound "Apartment not found for the income to update")
  else if truthyStr a.intermediaryId ∧ ¬ intermediaries (a.intermediaryId.getD "") then
    .error (notFound "Intermediary not found for the income to update")
  else if truthyStr a.rateId then
    match rates (a.rateId.getD "") with
    | none => .error (notFound "Rate not found for the income to update")
    | some _ => .error (internalError "apartmentId is not defined")
  else if truthyInt a.checkOut ∧
      endOfDayLocal (a.checkOut.getD 0) < startOfDayLocal (a.checkIn.getD nowMs) then
    .error (notFound "Check in date must be before tha check out date")
  else
    income.update rates
      { apartmentId := if truthyStr a.apartmentId then a.apartmentId else none,
        intermediaryId := if truthyStr a.intermediaryId then a.intermediaryId else none,
        rateId := none,
        checkIn := if truthyInt a.checkIn then a.checkIn else none,
        checkOut := if truthyInt a.checkOut then a.checkOut else none,
        clientName := if truthyStr a.clientName then a.clientName else none,
        clientNif := if truthyStr a.clientNif then a.clientNif else none,
        clientPhone := if truthyStr a.clientPhone then a.clientPhone else none,
        numberOfPeople := if truthyRat a.numberOfPeople then a.numberOfPeople else none,
        discount := if truthyRat a.discount then a.discount else none,
        observations := if truthyStr a.observations then a.observations else none }

/-- Embedding of the income service `updateIncomeById`: not-found check on
the looked-up document, then the body above. -/
def updateIncomeByIdService (apartments intermediaries : String → Bool)
    (rates : String → Option Rate) (nowMs : Int) (income? : Option IncomeDoc)
    (a : UpdateIncomeArgs) : Except ApiError IncomeDoc :=
  match income? with
  | none => .error (notFound "Income not found")
  | some income => updateIncomeFound apartments intermediaries rates nowMs income a

/-! ### Dashboard / VAT settlement service (services dashboard module)

The store queries (`incomeModel.find()`, `expenseModel.find(query)`) are
modelled by passing the record lists; a quarter query keeps the records
whose field lies between the bounds of the filter.  The wall clock used by
`getCurrentQuarter()` / `getCurrentYear()` is the parameter `nowMs`. -/

/-- The dashboard object built by both dashboard services. -/
structure Dashboard where
  incomes : List IncomeDoc
  totalIncomes : ℚ
  expenses : List ExpenseDoc
  totalExpenses : ℚ
  result : ℚ
  currentQuarter : Int
  totalVATQuarterlyIncomes : ℚ
  totalVATQuarterlyExpenses : ℚ
  quarterlyVAT : ℚ
deriving DecidableEq

/-- The forEach accumulation used on each side of the dashboard: a running
invoice total and a running VAT total. -/
def sumSide {α : Type} (invoice vat : α → ℚ) (records : List α) : ℚ × ℚ :=
  records.foldl (fun acc r => (acc.1 + invoice r, acc.2 + vat r)) (0, 0)

/-- Embedding of the dashboard service `getDashboardData`: sum every
income and every expense, and return the settlement object (the catch
branch is reachable only through store failures, which are outside this
model, so the result is always `ok`). -/
def getDashboardData (nowMs : Int) (incomes : List IncomeDoc)
    (expenses : List ExpenseDoc) : Except ApiError Dashboard :=
  let incomeTotals := sumSide IncomeDoc.totalInvoice IncomeDoc.totalIva incomes
  let expenseTotals := sumSide ExpenseDoc.totalInvoice ExpenseDoc.totalIva expenses
  .ok
    { incomes := incomes,
      totalIncomes := incomeTotals.1,
      expenses := expenses,
      totalExpenses := expenseTotals.1,
      result := incomeTotals.1 - expenseTotals.1,
      currentQuarter := getCurrentQuarter nowMs,
      totalVATQuarterlyIncomes := incomeTotals.2,
      totalVATQuarterlyExpenses := expenseTotals.2,
      quarterlyVAT := incomeTotals.2 - expenseTotals.2 }

/-- Embedding of the dashboard service `getDashboardByQuarterData`: the
quarter bounds come from `getQuarterDates(null, quarter)` (year defaulted
to the current year), the income query filters `checkIn` between
`startOfQuarter/1000` and `endOfQuarter/1000` (inclusive), the expense
query filters `date` between the same bounds, and the same aggregation as
`getDashboardData` runs on the filtered records. -/
def getDashboardByQuarterData (nowMs quarter : Int) (incomes : List IncomeDoc)
    (expenses : List ExpenseDoc) : Except ApiError Dashboard :=
  let quarterDates := getQuarterDates (getCurrentYear nowMs) quarter
  let selIncomes := incomes.filter fun i =>
    decide (quarterDates.1 / 1000 ≤ i.checkIn) && decide (i.checkIn ≤ quarterDates.2 / 1000)
  let selExpenses := expenses.filter fun e =>
    decide (quarterDates.1 / 1000 ≤ e.date) && decide (e.date ≤ quarterDates.2 / 1000)
  let incomeTotals := sumSide IncomeDoc.totalInvoice IncomeDoc.totalIva selIncomes
  let expenseTotals := sumSide ExpenseDoc.totalInvoice ExpenseDoc.totalIva selExpenses
  .ok
    { incomes := selIncomes,
      totalIncomes := incomeTotals.1,
      expenses := selExpenses,
      totalExpenses := expenseTotals.1,
      result := incomeTotals.1 - expenseTotals.1,
      currentQuarter := getCurrentQuarter nowMs,
      totalVATQuarterlyIncomes := incomeTotals.2,
      totalVATQuarterlyExpenses := expenseTotals.2,
      quarterlyVAT := incomeTotals.2 - expenseTotals.2 }

/-! ### Shape of the dashboard responses

Embeddings of the literal key sets: the keys of the object returned by
`getDashboardByQuarterData` (identical to the unbounded dashboard's), and
the properties declared by the quarterly 200-response schema
(`quarterlyVATDocumentSchemaProperties` in the dashboard handler). -/

/-- Keys of the object literal returned by `getDashboardByQuarterData`. -/
def quarterlyDashboardObjectKeys : List String :=
  ["incomes", "totalIncomes", "expenses", "totalExpenses", "result",
   "currentQuarter", "totalVATQuarterlyIncomes", "totalVATQuarterlyExpenses",
   "quarterlyVAT"]

/-- Properties declared by the quarterly VAT 200-response schema. -/
def quarterlyVATDocumentSchemaKeys : List String :=
  ["incomes", "totalIncomes", "expenses", "totalExpenses", "result",
   "currentQuarter", "quarterlyIncomes", "totalVATQuarterlyIncomes",
   "quarterlyExpenses", "totalVATQuarterlyExpenses", "quarterlyVAT",
   "startOfQuarter", "endOfQuarter"]

/-! ### Concrete fixtures used by the remaining claims -/

/-- An income document with the given check-in, other fields fixed. -/
def mkIncome (ci : Int) : IncomeDoc :=
  { apartmentId := "apt", intermediaryId := "med", rateId := "rate",
    checkIn := ci, checkOut := ci, nights := 0, clientName := "c",
    clientNif := "n", clientPhone := "p", numberOfPeople := 1, discount := 0,
    totalIva := 0, totalInvoice := 0, observations := "" }

/-- An expense document with the given date, other fields fixed. -/
def mkExpense (dt : Int) : ExpenseDoc :=
  { apartmentId := "apt", concept := "c", date := dt, providerNif := "nif",
    expense := 100, iva := 21, totalIva := 21, totalInvoice := 121,
    paid := false }

/-- A store in which every apartment id resolves. -/
def allApartments : String → Bool := fun _ => true

/-- A store in which every intermediary id resolves. -/
def allIntermediaries : String → Bool := fun _ => true

/-- The sample rate: 50 per night, 21% VAT, owned by apartment "apt". -/
def rate3 : Rate := { apartmentId := "apt", pricePerNight := 50, iva := 21 }

/-- A rate store resolving every id to `rate3`. -/
def rates3 : String → Option Rate := fun _ => some rate3

/-- The income input of the C3 concrete scenario: 2 people, 3 nights
(2024-06-20 to 2024-06-23, seconds timestamps), 10% discount, rate 50 per
night at 21% VAT. -/
def inp3 : IncomeInput :=
  { apartmentId := "apt", intermediaryId := "med", rateId := "rate",
    checkIn := 1718920414, checkOut := 1719179614, clientName := "c",
    clientNif := "n", clientPhone := "p", numberOfPeople := 2,
    discount := 10, observations := "" }

/-- The income document created from `inp3` and `rates3`. -/
def c3doc : IncomeDoc :=
  { apartmentId := "apt", intermediaryId := "med", rateId := "rate",
    checkIn := 1718920414, checkOut := 1719179614, nights := 3,
    clientName := "c", clientNif := "n", clientPhone := "p",
    numberOfPeople := 2, discount := 10, totalIva := 567 / 10,
    totalInvoice := 3267 / 10, observations := "" }

/-- An income update payload touching nothing. -/
def noIncomeChanges : IncomeUpdateData :=
  { apartmentId := none, intermediaryId := none, rateId := none,
    checkIn := none, checkOut := none, clientName := none,
    clientNif := none, clientPhone := none, numberOfPeople := none,
    discount := none, observations := none }

/-- Create request whose check-in day (epoch day 2) is after its
check-out day (epoch day 1), raw values read as ms by the validation. -/
def c7createArgs : CreateIncomeArgs :=
  { apartmentId := some "apt", intermediaryId := some "med",
    rateId := some "rate", checkIn := some 172800000,
    checkOut := some 86400000, clientName := some "c", clientNif := some "n",
    clientPhone := some "p", numberOfPeople := some 2, discount := 0,
    observations := none }

/-- Update request supplying the same out-of-order check-in/check-out. -/
def c7updateArgs : UpdateIncomeArgs :=
  { apartmentId := none, intermediaryId := none, rateId := none,
    checkIn := some 172800000, checkOut := some 86400000,
    clientName := none, clientNif := none, clientPhone := none,
    numberOfPeople := none, discount := none, observations := none }

/-- The stored expense of the C10 witness scenario. -/
def c10expense : ExpenseDoc :=
  { apartmentId := "apt", concept := "old", date := 5, providerNif := "nif",
    expense := 100, iva := 21, totalIva := 21, totalInvoice := 121,
    paid := true }

/-- The C10 witness request: truthy new amount 200, falsy `iva := 0`,
falsy `paid := false`, falsy empty `concept`, everything else absent. -/
def c10args : UpdateExpenseArgs :=
  { concept := some "", apartmentId := none, date := none,
    providerNif := none, expense := some 200, iva := some 0,
    paid := some false }

/-- The document stored after the C10 witness update: the amount is
written, VAT/paid/concept keep their previous values, totals are
recomputed from the new amount. -/
def c10doc : ExpenseDoc :=
  { apartmentId := "apt", concept := "old", date := 5, providerNif := "nif",
    expense := 200, iva := 21, totalIva := 42, totalInvoice := 242,
    paid := true }

/-! ### Structure of the Madrid calendar

The facts needed about the modelled time zone: the offset only takes the
values +1h and +2h, and every fall-back transition (offset decrease)
happens at a full hour past UTC midnight (01:00 UTC), so the local
calendar day number `madridDay` never decreases as time advances. -/

theorem madridOffset_cases (t : Int) :
    madridOffset t = 3600000 ∨ madridOffset t = 7200000 := by
  unfold madridOffset
  by_cases h : madridIsDST t <;> simp [h]

theorem madridOffset_eq_dst (t : Int) :
    madridOffset t = 7200000 ↔ madridIsDST t = true := by
  unfold madridOffset
  by_cases h : madridIsDST t <;> simp [h]

theorem dstAt_cycle_last : dstAt (12622780800000 - 1) = false := by decide

theorem madridCyclePos_lt (t : Int) : madridCyclePos t < 12622780800000 := by
  unfold madridCyclePos cycleMs baseMs
  omega

theorem madridCyclePos_nonneg (t : Int) : 0 ≤ madridCyclePos t := by
  unfold madridCyclePos cycleMs baseMs
  omega

/-- Every offset decrease of the Madrid calendar happens at 01:00 UTC. -/
theorem madrid_fall_aligned {t : Int} (h1 : madridIsDST t = true)
    (h2 : madridIsDST (t + 1) = false) : (t + 1) % 86400000 = 3600000 := by
  unfold madridIsDST at h1 h2
  by_cases hwrap : madridCyclePos t = 12622780800000 - 1
  · rw [hwrap, dstAt_cycle_last] at h1
    exact absurd h1 (by simp)
  · have hx1 : madridCyclePos (t + 1) = madridCyclePos t + 1 := by
      have hlt := madridCyclePos_lt t
      have hnn := madridCyclePos_nonneg t
      unfold madridCyclePos cycleMs baseMs at hlt hnn hwrap ⊢
      omega
    rw [hx1] at h2
    unfold dstAt at h1 h2
    rw [List.any_eq_true] at h1
    obtain ⟨k, hk, hcheck⟩ := h1
    rw [List.any_eq_false] at h2
    have hnot := h2 k hk
    simp only [Bool.and_eq_true, decide_eq_true_eq] at hcheck hnot
    have hend : madridCyclePos t + 1 = dstEndRel (2000 + (k : Int)) := by omega
    have hL : dstEndRel (2000 + (k : Int)) =
        (lastSundayDay (2000 + (k : Int)) 10 - 10957) * 86400000 + 3600000 := by
      unfold dstEndRel msPerDay msPerHour
      ring
    have hend' : madridCyclePos t + 1 =
        (lastSundayDay (2000 + (k : Int)) 10 - 10957) * 86400000 + 3600000 := by
      rw [hend, hL]
    have h' := hx1
    unfold madridCyclePos cycleMs baseMs at h' hend'
    omega

/-- The Madrid local day number never decreases as time advances by 1 ms. -/
theorem madridDay_step (t : Int) : madridDay t ≤ madridDay (t + 1) := by
  rcases madridOffset_cases t with h1 | h1 <;>
    rcases madridOffset_cases (t + 1) with h2 | h2
  · unfold madridDay madridLocal msPerDay
    rw [h1, h2]
    omega
  · unfold madridDay madridLocal msPerDay
    rw [h1, h2]
    omega
  · have hdst1 : madridIsDST t = true := (madridOffset_eq_dst t).mp h1
    have hdst2 : madridIsDST (t + 1) = false := by
      cases hb : madridIsDST (t + 1)
      · rfl
      · exact absurd ((madridOffset_eq_dst (t + 1)).mpr hb) (by rw [h2]; decide)
    have halign := madrid_fall_aligned hdst1 hdst2
    unfold madridDay madridLocal msPerDay
    rw [h1, h2]
    omega
  · unfold madridDay madridLocal msPerDay
    rw [h1, h2]
    omega

/-- The Madrid local day number is monotone in the instant. -/
theorem madridDay_mono {s t : Int} (h : s ≤ t) : madridDay s ≤ madridDay t := by
  refine Int.le_induction (m := s) (P := fun n => madridDay s ≤ madridDay n)
    ?_ ?_ t h
  · exact le_refl _
  · intro n _ ih
    exact le_trans ih (madridDay_step n)

/-- Closed form of `calculateDaysDifference`: the difference of local day
numbers, shifted up by one when the check-out day precedes the check-in
day (moment's absFloor truncates toward zero). -/
theorem calculateDaysDifference_closed (ci co : Int) :
    calculateDaysDifference ci co =
      if madridDay ci ≤ madridDay co then madridDay co - madridDay ci
      else madridDay co - madridDay ci + 1 := by
  unfold calculateDaysDifference absFloorDiv endOfDayLocal startOfDayLocal msPerDay
  have ha : madridDay ci = madridDay ci := rfl
  generalize madridDay ci = a at *
  generalize madridDay co = b at *
  split_ifs <;> omega

/-! ### Helper lemmas -/

theorem sumSide_foldl {α : Type} (f g : α → ℚ) :
    ∀ (l : List α) (a b : ℚ),
      l.foldl (fun acc r => (acc.1 + f r, acc.2 + g r)) (a, b) =
        (a + (l.map f).sum, b + (l.map g).sum) := by
  intro l
  induction l with
  | nil => intro a b; simp
  | cons x xs ih =>
    intro a b
    simp only [List.foldl_cons, List.map_cons, List.sum_cons, ih]
    rw [Prod.mk.injEq]
    constructor <;> ring

theorem sumSide_eq {α : Type} (f g : α → ℚ) (l : List α) :
    sumSide f g l = ((l.map f).sum, (l.map g).sum) := by
  unfold sumSide
  rw [sumSide_foldl]
  simp

/-! ### Claims -/

/-- C1.  For every set of income records and every set of expense records,
both dashboard aggregators return a success value whose totals are the
sums of the selected records' `totalInvoice` and `totalIva` fields, with
`result = totalIncomes - totalExpenses` and `quarterlyVAT =
totalVATQuarterlyIncomes - totalVATQuarterlyExpenses`; an empty record set
contributes zero totals and still yields a success value. -/
theorem dashboard_settlement_invariant (nowMs quarter : Int)
    (incomes : List IncomeDoc) (expenses : List ExpenseDoc) :
    (∃ d, getDashboardData nowMs incomes expenses = .ok d
      ∧ d.incomes = incomes
      ∧ d.expenses = expenses
      ∧ d.totalIncomes = (d.incomes.map IncomeDoc.totalInvoice).sum
      ∧ d.totalExpenses = (d.expenses.map ExpenseDoc.totalInvoice).sum
      ∧ d.totalVATQuarterlyIncomes = (d.incomes.map IncomeDoc.totalIva).sum
      ∧ d.totalVATQuarterlyExpenses = (d.expenses.map ExpenseDoc.totalIva).sum
      ∧ d.result = d.totalIncomes - d.totalExpenses
      ∧ d.quarterlyVAT = d.totalVATQuarterlyIncomes - d.totalVATQuarterlyExpenses)
    ∧ (∃ d, getDashboardByQuarterData nowMs quarter incomes expenses = .ok d
      ∧ d.totalIncomes = (d.incomes.map IncomeDoc.totalInvoice).sum
      ∧ d.totalExpenses = (d.expenses.map ExpenseDoc.totalInvoice).sum
      ∧ d.totalVATQuarterlyIncomes = (d.incomes.map IncomeDoc.totalIva).sum
      ∧ d.totalVATQuarterlyExpenses = (d.expenses.map ExpenseDoc.totalIva).sum
      ∧ d.result = d.totalIncomes - d.totalExpenses
      ∧ d.quarterlyVAT = d.totalVATQuarterlyIncomes - d.totalVATQuarterlyExpenses)
    ∧ (∃ d, getDashboardData nowMs [] expenses = .ok d
      ∧ d.totalIncomes = 0 ∧ d.totalVATQuarterlyIncomes = 0)
    ∧ (∃ d, getDashboardData nowMs incomes [] = .ok d
      ∧ d.totalExpenses = 0 ∧ d.totalVATQuarterlyExpenses = 0)
    ∧ (∃ d, getDashboardByQuarterData nowMs quarter [] expenses = .ok d
      ∧ d.totalIncomes = 0 ∧ d.totalVATQuarterlyIncomes = 0)
    ∧ (∃ d, getDashboardByQuarterData nowMs quarter incomes [] = .ok d
      ∧ d.totalExpenses = 0 ∧ d.totalVATQuarterlyExpenses = 0) := by
  refine ⟨⟨_, rfl, ?_⟩, ⟨_, rfl, ?_⟩, ⟨_, rfl, ?_⟩, ⟨_, rfl, ?_⟩,
    ⟨_, rfl, ?_⟩, ⟨_, rfl, ?_⟩⟩ <;>
    simp [getDashboardData, getDashboardByQuarterData, sumSide_eq]

/-- C8.  The quarterly VAT 200-response schema declares the fields
`quarterlyIncomes`, `quarterlyExpenses`, `startOfQuarter` and
`endOfQuarter`, but the object built by `getDashboardByQuarterData`
carries none of them (it has exactly the unbounded dashboard's keys), so
the quarterly dashboard response never contains these fields. -/
theorem quarterly_dashboard_fields_missing :
    ("quarterlyIncomes" ∈ quarterlyVATDocumentSchemaKeys
      ∧ "quarterlyExpenses" ∈ quarterlyVATDocumentSchemaKeys
      ∧ "startOfQuarter" ∈ quarterlyVATDocumentSchemaKeys
      ∧ "endOfQuarter" ∈ quarterlyVATDocumentSchemaKeys)
    ∧ ("quarterlyIncomes" ∉ quarterlyDashboardObjectKeys
      ∧ "quarterlyExpenses" ∉ quarterlyDashboardObjectKeys
      ∧ "startOfQuarter" ∉ quarterlyDashboardObjectKeys
      ∧ "endOfQuarter" ∉ quarterlyDashboardObjectKeys) := by
  decide

/-- C9.  Every expense document, immediately after creation and after
every update, satisfies `totalIva = expense * iva / 100` and
`totalInvoice = expense + totalIva` (recomputed from the current amount
and VAT percentage); in particular amount 100 with VAT 21 gives
`totalIva = 21` and `totalInvoice = 121`. -/
theorem expense_totals_invariant :
    (∀ (apartmentId concept providerNif : String) (date : Int)
        (expense iva : ℚ) (paid : Bool),
      (createNewExpense apartmentId concept date providerNif expense iva paid).expense
          = expense
        ∧ (createNewExpense apartmentId concept date providerNif expense iva paid).iva
          = iva
        ∧ (createNewExpense apartmentId concept date providerNif expense iva paid).totalIva
          = expense * iva / 100
        ∧ (createNewExpense apartmentId concept date providerNif expense iva paid).totalInvoice
          = expense + expense * iva / 100)
    ∧ (∀ (doc : ExpenseDoc) (data : ExpenseUpdateData),
        (doc.update data).totalIva = (doc.update data).expense * (doc.update data).iva / 100
        ∧ (doc.update data).totalInvoice
          = (doc.update data).expense + (doc.update data).totalIva)
    ∧ (createNewExpense "apt" "c" 0 "nif" 100 21 false).totalIva = 21
    ∧ (createNewExpense "apt" "c" 0 "nif" 100 21 false).totalInvoice = 121 := by
  refine ⟨fun apartmentId concept providerNif date expense iva paid => ?_,
    fun doc data => ?_, ?_, ?_⟩ <;>
    simp [createNewExpense, ExpenseDoc.update] <;> norm_num

/-- C4.  For each quarter of 2024, `getQuarterDates` returns exactly the
documented inclusive UTC-millisecond boundaries, and for every year and
every quarter in 1..4 the start is the first instant (00:00:00.000 UTC) of
month `(quarter-1)*3` (0-indexed), i.e. midnight of the first civil day of
that month. -/
theorem quarter_bounds_start_correct (y q : Int)
    (h : q = 1 ∨ q = 2 ∨ q = 3 ∨ q = 4) :
    (getQuarterDates y q).1 = daysFromCivil y ((q - 1) * 3 + 1) 1 * 86400000
    ∧ (getQuarterDates y q).1 % 86400000 = 0
    ∧ getQuarterDates 2024 1 = (1704067200000, 1711929599000)
    ∧ getQuarterDates 2024 2 = (1711929600000, 1719791999000)
    ∧ getQuarterDates 2024 3 = (1719792000000, 1727740799000)
    ∧ getQuarterDates 2024 4 = (1727740800000, 1735689599000) := by
  have hc1 : getQuarterDates 2024 1 = (1704067200000, 1711929599000) := by decide
  have hc2 : getQuarterDates 2024 2 = (1711929600000, 1719791999000) := by decide
  have hc3 : getQuarterDates 2024 3 = (1719792000000, 1727740799000) := by decide
  have hc4 : getQuarterDates 2024 4 = (1727740800000, 1735689599000) := by decide
  obtain rfl | rfl | rfl | rfl := h <;>
    refine ⟨?_, ?_, hc1, hc2, hc3, hc4⟩ <;>
    simp [getQuarterDates, monthFirstDay] <;>
    norm_num <;>
    omega

/-- Witness for C4 at year 2024, quarter 2. -/
theorem quarter_bounds_start_correct_witness :
    ((2 : Int) = 1 ∨ (2 : Int) = 2 ∨ (2 : Int) = 3 ∨ (2 : Int) = 4)
    ∧ (getQuarterDates 2024 2).1 = daysFromCivil 2024 ((2 - 1) * 3 + 1) 1 * 86400000 :=
  ⟨by norm_num, (quarter_bounds_start_correct 2024 2 (by norm_num)).1⟩

/-- C5 counterexample.  The quarter end returned by the code is the last
whole second of the quarter (23:59:59.000 UTC), not the last millisecond
(23:59:59.999 UTC), and the next quarter starts 1000 ms (not 1 ms) after
it: for 2024 Q1 the end is 1711929599000, while the last millisecond of
March 2024 is 1711929599999, and Q2 starts at 1711929600000. -/
theorem quarter_end_not_last_millisecond :
    (getQuarterDates 2024 1).2 = 1711929599000
    ∧ (getQuarterDates 2024 1).2 ≠ 1711929599999
    ∧ (getQuarterDates 2024 2).1 - (getQuarterDates 2024 1).2 = 1000 := by
  decide

theorem quarter_end_last_second (y q : Int)
    (h : q = 1 ∨ q = 2 ∨ q = 3 ∨ q = 4) :
    (getQuarterDates y q).2
      = (daysFromCivil (if q = 4 then y + 1 else y) (if q = 4 then 1 else q * 3 + 1) 1
          * 86400 - 1) * 1000
    ∧ (getQuarterDates y q).2 % 1000 = 0
    ∧ (q ≤ 3 → (getQuarterDates y (q + 1)).1 = (getQuarterDates y q).2 + 1000)
    ∧ (q = 4 → (getQuarterDates (y + 1) 1).1 = (getQuarterDates y 4).2 + 1000) := by
  obtain rfl | rfl | rfl | rfl := h <;>
    refine ⟨?_, ?_, fun hq => ?_, fun hq => ?_⟩ <;>
    first
    | omega
    | (simp [getQuarterDates, monthFirstDay] <;> norm_num <;> omega)

/-- Witness for C5 (amended) at year 2024, quarter 4. -/
theorem quarter_end_last_second_witness :
    ((4 : Int) = 1 ∨ (4 : Int) = 2 ∨ (4 : Int) = 3 ∨ (4 : Int) = 4)
    ∧ (getQuarterDates 2024 4).2
        = (daysFromCivil (if (4 : Int) = 4 then 2024 + 1 else 2024)
            (if (4 : Int) = 4 then 1 else 4 * 3 + 1) 1 * 86400 - 1) * 1000
    ∧ (getQuarterDates (2024 + 1) 1).1 = (getQuarterDates 2024 4).2 + 1000 :=
  ⟨by norm_num, (quarter_end_last_second 2024 4 (by norm_num)).1,
   (quarter_end_last_second 2024 4 (by norm_num)).2.2.2 rfl⟩

/-- C6.  `calculateDaysDifference` computes the whole-day difference
between the start of the check-in day and the end of the check-out day in
the Europe/Madrid calendar: it equals the difference of local day numbers
whenever the check-out day is not earlier, is 0 for same-day stamps, 1 for
adjacent days, is monotonically non-decreasing in checkOut, and maps the
concrete pair (1718920414000, 1719356014000) to 6. -/
theorem nights_whole_day_difference :
    calculateDaysDifference 1718920414000 1719356014000 = 6
    ∧ (∀ ci co : Int, madridDay ci ≤ madridDay co →
        calculateDaysDifference ci co = madridDay co - madridDay ci)
    ∧ (∀ ci co : Int, madridDay ci = madridDay co →
        calculateDaysDifference ci co = 0)
    ∧ (∀ ci co : Int, madridDay co = madridDay ci + 1 →
        calculateDaysDifference ci co = 1)
    ∧ (∀ ci co co' : Int, co ≤ co' →
        calculateDaysDifference ci co ≤ calculateDaysDifference ci co') := by
  refine ⟨by decide, fun ci co h => ?_, fun ci co h => ?_, fun ci co h => ?_,
    fun ci co co' h => ?_⟩
  · rw [calculateDaysDifference_closed, if_pos h]
  · rw [calculateDaysDifference_closed, if_pos (le_of_eq h)]
    omega
  · rw [calculateDaysDifference_closed, if_pos (by omega)]
    omega
  · have hd := madridDay_mono h
    rw [calculateDaysDifference_closed, calculateDaysDifference_closed]
    split_ifs <;> omega

/-- Witness for C6: the hypothesized parts applied at concrete June 2024
instants (same day, adjacent day, non-decreasing). -/
theorem nights_whole_day_difference_witness :
    calculateDaysDifference 1718920414000 1719356014000
        = madridDay 1719356014000 - madridDay 1718920414000
    ∧ calculateDaysDifference 1718841600000 1718880000000 = 0
    ∧ calculateDaysDifference 1718841600000 1718928000000 = 1
    ∧ calculateDaysDifference 1718920414000 1718920414000
        ≤ calculateDaysDifference 1718920414000 1719356014000 :=
  ⟨nights_whole_day_difference.2.1 1718920414000 1719356014000 (by decide),
   nights_whole_day_difference.2.2.1 1718841600000 1718880000000 (by decide),
   nights_whole_day_difference.2.2.2.1 1718841600000 1718928000000 (by decide),
   nights_whole_day_difference.2.2.2.2 1718920414000 1718920414000 1719356014000
     (by norm_num)⟩

/-- C2 counterexample input: the quarterly dashboard is requested in June
2024 (current year 2024) for Q1, whose bounds are [1704067200000,
1711929599000] ms; an income whose `checkIn` equals the start bound
1704067200000 - which the claim says must be included - is filtered out,
because the query compares `checkIn` against the bounds divided by 1000.
-/
theorem quarter_window_ms_start_excluded :
    (getQuarterDates (getCurrentYear 1718920414000) 1).1 = 1704067200000
    ∧ (getDashboardByQuarterData 1718920414000 1 [mkIncome 1704067200000] []).toOption.map
        Dashboard.incomes = some [] := by
  constructor
  · decide
  · decide

/-- C2 (amended).  The quarterly dashboard selects exactly the incomes
whose `checkIn` and the expenses whose `date` lie within
`[startOfQuarter/1000, endOfQuarter/1000]` - the quarter bounds in UTC
seconds - both bounds inclusive: the income query filters on `checkIn`
(never `checkOut`), the expense query on `date`; a record exactly at
either second bound is included and a record one second outside either
bound is excluded (for June 2024, Q1 the seconds window is
[1704067200, 1711929599]). -/
theorem quarter_window_filters_by_seconds (nowMs quarter : Int)
    (incomes : List IncomeDoc) (expenses : List ExpenseDoc)
    (i : IncomeDoc) (e : ExpenseDoc) :
    (∃ d, getDashboardByQuarterData nowMs quarter incomes expenses = .ok d
      ∧ (i ∈ d.incomes ↔ i ∈ incomes
          ∧ (getQuarterDates (getCurrentYear nowMs) quarter).1 / 1000 ≤ i.checkIn
          ∧ i.checkIn ≤ (getQuarterDates (getCurrentYear nowMs) quarter).2 / 1000)
      ∧ (e ∈ d.expenses ↔ e ∈ expenses
          ∧ (getQuarterDates (getCurrentYear nowMs) quarter).1 / 1000 ≤ e.date
          ∧ e.date ≤ (getQuarterDates (getCurrentYear nowMs) quarter).2 / 1000))
    ∧ (getDashboardByQuarterData 1718920414000 1 [mkIncome 1704067200] []).toOption.map
        Dashboard.incomes = some [mkIncome 1704067200]
    ∧ (getDashboardByQuarterData 1718920414000 1 [mkIncome 1711929599] []).toOption.map
        Dashboard.incomes = some [mkIncome 1711929599]
    ∧ (getDashboardByQuarterData 1718920414000 1 [mkIncome 1704067199] []).toOption.map
        Dashboard.incomes = some []
    ∧ (getDashboardByQuarterData 1718920414000 1 [mkIncome 1711929600] []).toOption.map
        Dashboard.incomes = some []
    ∧ (getDashboardByQuarterData 1718920414000 1 [] [mkExpense 1704067200]).toOption.map
        Dashboard.expenses = some [mkExpense 1704067200]
    ∧ (getDashboardByQuarterData 1718920414000 1 [] [mkExpense 1711929600]).toOption.map
        Dashboard.expenses = some [] := by
  refine ⟨⟨_, rfl, ?_, ?_⟩, by decide, by decide, by decide, by decide,
    by decide, by decide⟩ <;>
    simp [getDashboardByQuarterData, List.mem_filter, and_assoc]

/-- C3.  Every income document produced by creation or update satisfies,
with p/v the price and VAT of the rate it references at computation time,
n its people count, k its nights and d its discount:
`totalIva = (p*n*k) * (1 - d/100) * (v/100)` and
`totalInvoice = (p*n*k) * (1 - d/100) + totalIva` - so the discount is
applied to the base before VAT and VAT is computed on the discounted
amount only.  Concretely, price 50, 2 people, 3 nights, 10% discount and
21% VAT give totalIva = 56.7 and totalInvoice = 326.7. -/
theorem income_vat_discount_before_tax (rates : String → Option Rate)
    (r : Rate) (inp : IncomeInput) (base : IncomeDoc)
    (upd : IncomeUpdateData) :
    (∀ d, createNewIncome rates inp = .ok d → rates d.rateId = some r →
      d.totalIva = r.pricePerNight * d.numberOfPeople * (d.nights : ℚ)
          * (1 - d.discount / 100) * (r.iva / 100)
        ∧ d.totalInvoice = r.pricePerNight * d.numberOfPeople * (d.nights : ℚ)
          * (1 - d.discount / 100) + d.totalIva)
    ∧ (∀ d, IncomeDoc.update rates base upd = .ok d → rates d.rateId = some r →
      d.totalIva = r.pricePerNight * d.numberOfPeople * (d.nights : ℚ)
          * (1 - d.discount / 100) * (r.iva / 100)
        ∧ d.totalInvoice = r.pricePerNight * d.numberOfPeople * (d.nights : ℚ)
          * (1 - d.discount / 100) + d.totalIva)
    ∧ createNewIncome rates3 inp3 = .ok c3doc
    ∧ c3doc.nights = 3 ∧ c3doc.totalIva = 567 / 10
    ∧ c3doc.totalInvoice = 3267 / 10 := by
  refine ⟨fun d hd hr => ?_, fun d hd hr => ?_, ?_, rfl, rfl, rfl⟩
  · unfold createNewIncome at hd
    cases hre : rates inp.rateId with
    | none => rw [hre] at hd; exact absurd hd (by simp)
    | some rate =>
      rw [hre] at hd
      simp only [Except.ok.injEq] at hd
      subst hd
      simp only at hr ⊢
      rw [hre] at hr
      simp only [Option.some.injEq] at hr
      subst hr
      constructor <;> ring
  · unfold IncomeDoc.update at hd
    cases hre : rates ((base.applyData upd).rateId) with
    | none => rw [hre] at hd; exact absurd hd (by simp)
    | some rate =>
      rw [hre] at hd
      simp only [Except.ok.injEq] at hd
      subst hd
      dsimp only at hr ⊢
      rw [hre] at hr
      simp only [Option.some.injEq] at hr
      subst hr
      constructor <;> ring
  · have hn : calculateDaysDifference (inp3.checkIn * 1000) (inp3.checkOut * 1000) = 3 := by
      decide
    unfold createNewIncome
    rw [show rates3 inp3.rateId = some rate3 from rfl]
    simp only [hn]
    norm_num [inp3, c3doc, rate3, IncomeDoc.mk.injEq]

/-- Witness for C3: the creation part applied to the concrete scenario. -/
theorem income_vat_discount_before_tax_witness :
    c3doc.totalIva = rate3.pricePerNight * c3doc.numberOfPeople * (c3doc.nights : ℚ)
        * (1 - c3doc.discount / 100) * (rate3.iva / 100)
    ∧ c3doc.totalInvoice = rate3.pricePerNight * c3doc.numberOfPeople * (c3doc.nights : ℚ)
        * (1 - c3doc.discount / 100) + c3doc.totalIva :=
  (income_vat_discount_before_tax rates3 rate3 inp3 c3doc noIncomeChanges).1
    c3doc (income_vat_discount_before_tax rates3 rate3 inp3 c3doc noIncomeChanges).2.2.1
    rfl

/-! ### Success conditions of the income date guards -/

/-- A successful income creation implies the check-in calendar day (of the
raw request value) is not after the check-out calendar day. -/
theorem createNewIncomeService_ok_day {apts ints : String → Bool}
    {rates : String → Option Rate} {a : CreateIncomeArgs} {d : IncomeDoc}
    (h : createNewIncomeService apts ints rates a = .ok d) :
    madridDay (a.checkIn.getD 0) ≤ madridDay (a.checkOut.getD 0) := by
  unfold createNewIncomeService at h
  by_cases c1 : ¬ truthyStr a.apartmentId = true
  · rw [if_pos c1] at h
    exact Except.noConfusion h
  · rw [if_neg c1] at h
    by_cases c2 : ¬ apts (a.apartmentId.getD "") = true
    · rw [if_pos c2] at h
      exact Except.noConfusion h
    · rw [if_neg c2] at h
      by_cases c3 : ¬ truthyStr a.intermediaryId = true
      · rw [if_pos c3] at h
        exact Except.noConfusion h
      · rw [if_neg c3] at h
        by_cases c4 : ¬ ints (a.intermediaryId.getD "") = true
        · rw [if_pos c4] at h
          exact Except.noConfusion h
        · rw [if_neg c4] at h
          by_cases c5 : ¬ truthyStr a.rateId = true
          · rw [if_pos c5] at h
            exact Except.noConfusion h
          · rw [if_neg c5] at h
            cases hre : rates (a.rateId.getD "") with
            | none =>
              rw [hre] at h
              exact Except.noConfusion h
            | some rate =>
              rw [hre] at h
              have h2 : createIncomeWithRate rates rate a = .ok d := h
              unfold createIncomeWithRate at h2
              by_cases c6 : rate.apartmentId ≠ a.apartmentId.getD ""
              · rw [if_pos c6] at h2
                exact Except.noConfusion h2
              · rw [if_neg c6] at h2
                by_cases c7 : ¬ truthyInt a.checkIn = true
                · rw [if_pos c7] at h2
                  exact Except.noConfusion h2
                · rw [if_neg c7] at h2
                  by_cases c8 : ¬ truthyInt a.checkOut = true
                  · rw [if_pos c8] at h2
                    exact Except.noConfusion h2
                  · rw [if_neg c8] at h2
                    by_cases c9 : endOfDayLocal (a.checkOut.getD 0)
                        < startOfDayLocal (a.checkIn.getD 0)
                    · rw [if_pos c9] at h2
                      exact Except.noConfusion h2
                    · unfold endOfDayLocal startOfDayLocal msPerDay at c9
                      omega

/-- A successful income update that supplies a truthy check-out implies
the check-out day is not before the day of the supplied check-in (or of
the current time when the check-in is absent). -/
theorem updateIncomeByIdService_ok_day {apts ints : String → Bool}
    {rates : String → Option Rate} {nowMs : Int} {inc? : Option IncomeDoc}
    {ua : UpdateIncomeArgs} {d : IncomeDoc}
    (h : updateIncomeByIdService apts ints rates nowMs inc? ua = .ok d)
    (hco : truthyInt ua.checkOut = true) :
    madridDay (ua.checkIn.getD nowMs) ≤ madridDay (ua.checkOut.getD 0) := by
  cases inc? with
  | none => exact Except.noConfusion h
  | some income =>
    have h' : updateIncomeFound apts ints rates nowMs income ua = .ok d := h
    unfold updateIncomeFound at h'
    by_cases c1 : truthyStr ua.apartmentId = true
        ∧ ¬ apts (ua.apartmentId.getD "") = true
    · rw [if_pos c1] at h'
      exact Except.noConfusion h'
    · rw [if_neg c1] at h'
      by_cases c2 : truthyStr ua.intermediaryId = true
          ∧ ¬ ints (ua.intermediaryId.getD "") = true
      · rw [if_pos c2] at h'
        exact Except.noConfusion h'
      · rw [if_neg c2] at h'
        by_cases c3 : truthyStr ua.rateId = true
        · rw [if_pos c3] at h'
          cases hre : rates (ua.rateId.getD "") with
          | none =>
            rw [hre] at h'
            exact Except.noConfusion h'
          | some r0 =>
            rw [hre] at h'
            exact Except.noConfusion h'
        · rw [if_neg c3] at h'
          by_cases c4 : truthyInt ua.checkOut = true
              ∧ endOfDayLocal (ua.checkOut.getD 0)
                < startOfDayLocal (ua.checkIn.getD nowMs)
          · rw [if_pos c4] at h'
            exact Except.noConfusion h'
          · have hni : ¬ endOfDayLocal (ua.checkOut.getD 0)
                < startOfDayLocal (ua.checkIn.getD nowMs) :=
              fun hlt => c4 ⟨hco, hlt⟩
            unfold endOfDayLocal startOfDayLocal msPerDay at hni
            omega

/-- C7 counterexample.  An income creation request with
`checkOut = checkIn` (both 1718920414) passes the validation - which only
rejects a check-in whose calendar day is strictly after the check-out's -
and creates an income document with `nights = 0` instead of failing. -/
theorem income_equal_checkin_checkout_accepted :
    (createNewIncomeService allApartments allIntermediaries rates3
        { apartmentId := some "apt", intermediaryId := some "med",
          rateId := some "rate", checkIn := some 1718920414,
          checkOut := some 1718920414, clientName := some "c",
          clientNif := some "n", clientPhone := some "p",
          numberOfPeople := some 2, discount := 0,
          observations := none }).toOption.map
      (fun d => (d.checkIn, d.checkOut, d.nights))
      = some (1718920414, 1718920414, 0) := by
  decide

/-- C7 (amended).  An income create request is rejected (never yields a
created document) whenever the calendar day of the raw check-in value is
strictly after the calendar day of the raw check-out value, and an update
request whenever a truthy check-out's day is strictly before the day of
the supplied check-in (defaulting to the current instant when absent);
check-out values at or before the check-in on the same calendar day are
not rejected and produce a document with `nights = 0`. -/
theorem income_day_guard (apts ints : String → Bool)
    (rates : String → Option Rate) (a : CreateIncomeArgs)
    (ua : UpdateIncomeArgs) (inc? : Option IncomeDoc)
    (nowMs ci co : Int) (d d2 : IncomeDoc) :
    (a.checkIn = some ci → a.checkOut = some co →
      madridDay co < madridDay ci →
      createNewIncomeService apts ints rates a ≠ .ok d)
    ∧ (ua.checkOut = some co → co ≠ 0 →
      madridDay co < madridDay (ua.checkIn.getD nowMs) →
      updateIncomeByIdService apts ints rates nowMs inc? ua ≠ .ok d2) := by
  constructor
  · intro h1 h2 h3 hok
    have hd := createNewIncomeService_ok_day hok
    rw [h1, h2] at hd
    simp only [Option.getD_some] at hd
    omega
  · intro h1 h2 h3 hok
    have hd := updateIncomeByIdService_ok_day hok (by rw [h1]; simp [truthyInt, h2])
    rw [h1] at hd
    simp only [Option.getD_some] at hd
    omega

/-- Witness for C7 (amended): both rejection parts applied to concrete
out-of-order requests. -/
theorem income_day_guard_witness :
    createNewIncomeService allApartments allIntermediaries rates3 c7createArgs
        ≠ .ok (mkIncome 0)
    ∧ updateIncomeByIdService allApartments allIntermediaries rates3
        1718920414000 (some (mkIncome 7)) c7updateArgs ≠ .ok (mkIncome 0) :=
  ⟨(income_day_guard allApartments allIntermediaries rates3 c7createArgs
      c7updateArgs (some (mkIncome 7)) 1718920414000 172800000 86400000
      (mkIncome 0) (mkIncome 0)).1 rfl rfl (by decide),
   (income_day_guard allApartments allIntermediaries rates3 c7createArgs
      c7updateArgs (some (mkIncome 7)) 1718920414000 172800000 86400000
      (mkIncome 0) (mkIncome 0)).2 rfl (by norm_num) (by decide)⟩

/-! ### Truthiness bookkeeping for the update frame -/

theorem ifTruthy_getD_str (o : Option String) (old : String) :
    (if truthyStr o then o else none).getD old
      = if truthyStr o then o.getD "" else old := by
  cases o with
  | none => simp [truthyStr]
  | some s => by_cases hs : s = "" <;> simp [truthyStr, hs]

theorem ifTruthy_getD_int (o : Option Int) (old : Int) :
    (if truthyInt o then o else none).getD old
      = if truthyInt o then o.getD 0 else old := by
  cases o with
  | none => simp [truthyInt]
  | some n => by_cases hn : n = 0 <;> simp [truthyInt, hn]

theorem ifTruthy_getD_rat (o : Option ℚ) (old : ℚ) :
    (if truthyRat o then o else none).getD old
      = if truthyRat o then o.getD 0 else old := by
  cases o with
  | none => simp [truthyRat]
  | some q => by_cases hq : q = 0 <;> simp [truthyRat, hq]

theorem ifTruthy_getD_bool (o : Option Bool) (old : Bool) :
    (if truthyBool o then o else none).getD old
      = if truthyBool o then o.getD false else old := by
  cases o with
  | none => simp [truthyBool]
  | some b => cases b <;> simp [truthyBool]

/-- Fields of a successfully updated income document: each copy-through
field is the payload value when present and the stored value otherwise. -/
theorem IncomeDoc.update_ok_fields {rates : String → Option Rate}
    {doc : IncomeDoc} {data : IncomeUpdateData} {d : IncomeDoc}
    (h : IncomeDoc.update rates doc data = .ok d) :
    d.apartmentId = data.apartmentId.getD doc.apartmentId
    ∧ d.intermediaryId = data.intermediaryId.getD doc.intermediaryId
    ∧ d.rateId = data.rateId.getD doc.rateId
    ∧ d.checkIn = data.checkIn.getD doc.checkIn
    ∧ d.checkOut = data.checkOut.getD doc.checkOut
    ∧ d.clientName = data.clientName.getD doc.clientName
    ∧ d.clientNif = data.clientNif.getD doc.clientNif
    ∧ d.clientPhone = data.clientPhone.getD doc.clientPhone
    ∧ d.numberOfPeople = data.numberOfPeople.getD doc.numberOfPeople
    ∧ d.discount = data.discount.getD doc.discount
    ∧ d.observations = data.observations.getD doc.observations := by
  unfold IncomeDoc.update at h
  cases hre : rates ((doc.applyData data).rateId) with
  | none =>
    rw [hre] at h
    exact Except.noConfusion h
  | some rate =>
    rw [hre] at h
    simp only [Except.ok.injEq] at h
    subst h
    exact ⟨rfl, rfl, rfl, rfl, rfl, rfl, rfl, rfl, rfl, rfl, rfl⟩

/-- C10.  In every successful expense or income update, each updatable
field of the resulting document equals the supplied value when that value
is truthy and the previous stored value otherwise - so a falsy supplied
value (0, false, or the empty string) is indistinguishable from not
supplying the field, and fields not supplied are left unchanged (the
income `rateId` is always left unchanged, because a truthy `rateId`
never reaches a successful update). -/
theorem update_ignores_falsy_and_absent_fields :
    (∀ (apts : String → Bool) (nowMs : Int) (e : ExpenseDoc)
        (a : UpdateExpenseArgs) (d : ExpenseDoc),
      updateExpenseByIdService apts nowMs (some e) a = .ok d →
        d.concept = (if truthyStr a.concept then a.concept.getD "" else e.concept)
        ∧ d.apartmentId
          = (if truthyStr a.apartmentId then a.apartmentId.getD "" else e.apartmentId)
        ∧ d.date = (if truthyInt a.date then a.date.getD 0 else e.date)
        ∧ d.providerNif
          = (if truthyStr a.providerNif then a.providerNif.getD "" else e.providerNif)
        ∧ d.expense = (if truthyRat a.expense then a.expense.getD 0 else e.expense)
        ∧ d.iva = (if truthyRat a.iva then a.iva.getD 0 else e.iva)
        ∧ d.paid = (if truthyBool a.paid then a.paid.getD false else e.paid))
    ∧ (∀ (apts ints : String → Bool) (rates : String → Option Rate)
        (nowMs : Int) (inc : IncomeDoc) (a : UpdateIncomeArgs) (d : IncomeDoc),
      updateIncomeByIdService apts ints rates nowMs (some inc) a = .ok d →
        d.apartmentId
          = (if truthyStr a.apartmentId then a.apartmentId.getD "" else inc.apartmentId)
        ∧ d.intermediaryId
          = (if truthyStr a.intermediaryId then a.intermediaryId.getD "" else inc.intermediaryId)
        ∧ d.rateId = inc.rateId
        ∧ d.checkIn = (if truthyInt a.checkIn then a.checkIn.getD 0 else inc.checkIn)
        ∧ d.checkOut = (if truthyInt a.checkOut then a.checkOut.getD 0 else inc.checkOut)
        ∧ d.clientName
          = (if truthyStr a.clientName then a.clientName.getD "" else inc.clientName)
        ∧ d.clientNif
          = (if truthyStr a.clientNif then a.clientNif.getD "" else inc.clientNif)
        ∧ d.clientPhone
          = (if truthyStr a.clientPhone then a.clientPhone.getD "" else inc.clientPhone)
        ∧ d.numberOfPeople
          = (if truthyRat a.numberOfPeople then a.numberOfPeople.getD 0 else inc.numberOfPeople)
        ∧ d.discount
          = (if truthyRat a.discount then a.discount.getD 0 else inc.discount)
        ∧ d.observations
          = (if truthyStr a.observations then a.observations.getD "" else inc.observations)) := by
  constructor
  · intro apts nowMs e a d h
    have h' : updateExpenseFound apts nowMs e a = .ok d := h
    unfold updateExpenseFound at h'
    by_cases c1 : truthyStr a.apartmentId = true
        ∧ ¬ apts (a.apartmentId.getD "") = true
    · rw [if_pos c1] at h'
      exact Except.noConfusion h'
    · rw [if_neg c1] at h'
      by_cases c2 : truthyInt a.date = true ∧ endOfTodayInstant nowMs < a.date.getD 0
      · rw [if_pos c2] at h'
        exact Except.noConfusion h'
      · rw [if_neg c2] at h'
        simp only [Except.ok.injEq] at h'
        subst h'
        exact ⟨ifTruthy_getD_str _ _, ifTruthy_getD_str _ _, ifTruthy_getD_int _ _,
          ifTruthy_getD_str _ _, ifTruthy_getD_rat _ _, ifTruthy_getD_rat _ _,
          ifTruthy_getD_bool _ _⟩
  · intro apts ints rates nowMs inc a d h
    have h' : updateIncomeFound apts ints rates nowMs inc a = .ok d := h
    unfold updateIncomeFound at h'
    by_cases c1 : truthyStr a.apartmentId = true
        ∧ ¬ apts (a.apartmentId.getD "") = true
    · rw [if_pos c1] at h'
      exact Except.noConfusion h'
    · rw [if_neg c1] at h'
      by_cases c2 : truthyStr a.intermediaryId = true
          ∧ ¬ ints (a.intermediaryId.getD "") = true
      · rw [if_pos c2] at h'
        exact Except.noConfusion h'
      · rw [if_neg c2] at h'
        by_cases c3 : truthyStr a.rateId = true
        · rw [if_pos c3] at h'
          cases hre : rates (a.rateId.getD "") with
          | none =>
            rw [hre] at h'
            exact Except.noConfusion h'
          | some r0 =>
            rw [hre] at h'
            exact Except.noConfusion h'
        · rw [if_neg c3] at h'
          by_cases c4 : truthyInt a.checkOut = true
              ∧ endOfDayLocal (a.checkOut.getD 0)
                < startOfDayLocal (a.checkIn.getD nowMs)
          · rw [if_pos c4] at h'
            exact Except.noConfusion h'
          · rw [if_neg c4] at h'
            obtain ⟨e1, e2, e3, e4, e5, e6, e7, e8, e9, e10, e11⟩ :=
              IncomeDoc.update_ok_fields h'
            refine ⟨?_, ?_, e3, ?_, ?_, ?_, ?_, ?_, ?_, ?_, ?_⟩
            · rw [e1]; exact ifTruthy_getD_str _ _
            · rw [e2]; exact ifTruthy_getD_str _ _
            · rw [e4]; exact ifTruthy_getD_int _ _
            · rw [e5]; exact ifTruthy_getD_int _ _
            · rw [e6]; exact ifTruthy_getD_str _ _
            · rw [e7]; exact ifTruthy_getD_str _ _
            · rw [e8]; exact ifTruthy_getD_str _ _
            · rw [e9]; exact ifTruthy_getD_rat _ _
            · rw [e10]; exact ifTruthy_getD_rat _ _
            · rw [e11]; exact ifTruthy_getD_str _ _

/-- Witness for C10: the expense part applied to the concrete scenario;
the falsy-supplied VAT, paid flag and concept survive unchanged while the
truthy amount is written. -/
theorem update_ignores_falsy_and_absent_fields_witness :
    c10doc.iva = c10expense.iva ∧ c10doc.paid = c10expense.paid
    ∧ c10doc.concept = c10expense.concept ∧ c10doc.expense = (200 : ℚ) := by
  have hok : updateExpenseByIdService allApartments 1718920414000
      (some c10expense) c10args = .ok c10doc := by
    show updateExpenseFound allApartments 1718920414000 c10expense c10args
      = .ok c10doc
    unfold updateExpenseFound
    norm_num [truthyStr, truthyRat, truthyInt, truthyBool, c10args,
      ExpenseDoc.update, ExpenseDoc.applyData, c10expense, c10doc,
      ExpenseDoc.mk.injEq]
  have h := update_ignores_falsy_and_absent_fields.1 allApartments
    1718920414000 c10expense c10args c10doc hok
  refine ⟨?_, ?_, ?_, ?_⟩
  · simpa [truthyRat, c10args] using h.2.2.2.2.2.1
  · simpa [truthyBool, c10args] using h.2.2.2.2.2.2
  · simpa [truthyStr, c10args] using h.1
  · simpa [truthyRat, c10args] using h.2.2.2.2.1

end GestionAlquiler
